import Mathlib

/-!
Verification of the iot_data_saver_service telemetry bridge.

Shallow embedding of the Rust sources:
* `src/message/domain.rs` — domain records (`Metadata`, the five telemetry
  variants, `Heartbeat`) and the `Message` tagged union;
* `src/database/domain.rs` — the `TableDataVector` batch buffer;
* `src/database/logic.rs` — the `dba_task` buffering loop (one loop
  iteration is `dbaStep`; a whole run over a message list is `dbaRun`);
* `src/database/repository.rs` — `Repository::insert`, modelled as the
  ordered list of bulk statements it issues plus a sequential executor
  parametrised by a per-statement failure oracle;
* `src/message/logic.rs` — the inbound translator `message_download`
  (one event is `message_download_step`) and `extract_metadata`;
* `src/heartbeat/logic.rs` / `src/heartbeat/domain.rs` — the heartbeat
  generator protocol;
* `src/grpc_service/logic.rs` — the `grpc_task` state machine;
* `src/channels/domain.rs` and `src/main.rs` — channel capacities.

Machine floats (`f32`) are carried opaquely as their 32-bit pattern
(`F32`): no claim computes with them, they are only copied.  Rust `i64`,
`i32`, `i8` become `Int`, `u32`/`u64`/`usize` become `Nat`; the one place
the code narrows an integer (`as i8` in `message_download`) is modelled
explicitly by `i32_as_i8` with two's-complement wrap-around.  Async
sends are modelled by the list of values a task hands to a channel, and
the wall clock / insert outcome are passed in as explicit arguments.
-/

namespace DataSaver

/-- Opaque carrier for a Rust `f32`: the 32-bit pattern.  The claims under
study never compute with float values, they only copy them. -/
structure F32 where
  bits : Nat
deriving Repr, DecidableEq

/-- `Metadata` from `src/message/domain.rs`. -/
structure Metadata where
  sender_user_id : String
  destination_id : String
  timestamp : Int
deriving Repr, DecidableEq

/-- `Measurement` from `src/message/domain.rs`. -/
structure Measurement where
  metadata : Metadata
  network : String
  pulse_counter : Int
  pulse_max_duration : Int
  temperature : F32
  humidity : F32
  co2_ppm : F32
  sample : Nat
deriving Repr, DecidableEq

/-- `AlertAir` from `src/message/domain.rs`. -/
structure AlertAir where
  metadata : Metadata
  network : String
  co2_initial_ppm : F32
  co2_actual_ppm : F32
deriving Repr, DecidableEq

/-- `AlertTh` from `src/message/domain.rs`. -/
structure AlertTh where
  metadata : Metadata
  network : String
  initial_temp : F32
  actual_temp : F32
deriving Repr, DecidableEq

/-- `Monitor` from `src/message/domain.rs`; `wifi_rssi` is a Rust `i8`. -/
structure Monitor where
  metadata : Metadata
  network : String
  mem_free : Int
  mem_free_hm : Int
  mem_free_block : Int
  mem_free_internal : Int
  stack_free_min_coll : Int
  stack_free_min_pub : Int
  stack_free_min_mic : Int
  stack_free_min_th : Int
  stack_free_min_air : Int
  stack_free_min_mon : Int
  wifi_ssid : String
  wifi_rssi : Int
  active_time : Int
deriving Repr, DecidableEq

/-- `Heartbeat` from `src/message/domain.rs`. -/
structure Heartbeat where
  metadata : Metadata
  beat : Bool
deriving Repr, DecidableEq

/-- `SystemMetrics` from `src/message/domain.rs`; the two Wi-Fi fields are
declared `Option<i32>`. -/
structure SystemMetrics where
  metadata : Metadata
  uptime_seconds : Nat
  cpu_usage_percent : F32
  cpu_temp_celsius : F32
  ram_total_mb : Nat
  ram_used_mb : Nat
  sd_total_gb : Nat
  sd_used_gb : Nat
  sd_usage_percent : F32
  network_rx_bytes : Nat
  network_tx_bytes : Nat
  wifi_rssi : Option Int
  wifi_signal_dbm : Option Int
deriving Repr, DecidableEq

/-- The `Message` tagged union from `src/message/domain.rs`. -/
inductive Message where
  | Report (m : Measurement)
  | Monitor (m : Monitor)
  | AlertAir (a : AlertAir)
  | AlertTem (a : AlertTh)
  | Heartbeat (h : Heartbeat)
  | Metrics (s : SystemMetrics)
deriving Repr, DecidableEq

/-- `BATCH_SIZE` from `src/system/domain.rs` (`pub mod database`). -/
def BATCH_SIZE : Nat := 100

/-- `TableDataVector` from `src/database/domain.rs`: five per-variant
sequences. -/
structure TableDataVector where
  measurement : List Measurement
  system_metrics : List SystemMetrics
  alert_air : List AlertAir
  alert_th : List AlertTh
  monitor : List Monitor
deriving Repr, DecidableEq

/-- `TableDataVector::new` — all five sequences start empty (the Rust
capacity pre-reservation has no observable effect on contents). -/
def TableDataVector.new : TableDataVector :=
  { measurement := [], system_metrics := [], alert_air := [], alert_th := [], monitor := [] }

/-- `TableDataVector::is_measurement_full`. -/
def TableDataVector.is_measurement_full (v : TableDataVector) : Bool :=
  v.measurement.length == BATCH_SIZE

/-- `TableDataVector::is_monitor_full`. -/
def TableDataVector.is_monitor_full (v : TableDataVector) : Bool :=
  v.monitor.length == BATCH_SIZE

/-- `TableDataVector::is_alert_air_full`. -/
def TableDataVector.is_alert_air_full (v : TableDataVector) : Bool :=
  v.alert_air.length == BATCH_SIZE

/-- `TableDataVector::is_alert_th_full`. -/
def TableDataVector.is_alert_th_full (v : TableDataVector) : Bool :=
  v.alert_th.length == BATCH_SIZE

/-- `TableDataVector::is_metrics_full`. -/
def TableDataVector.is_metrics_full (v : TableDataVector) : Bool :=
  v.system_metrics.length == BATCH_SIZE

/-- `TableDataVector::is_some_vector_full`, with the source's disjunct
order. -/
def TableDataVector.is_some_vector_full (v : TableDataVector) : Bool :=
  v.is_measurement_full || v.is_alert_air_full ||
    v.is_alert_th_full || v.is_monitor_full || v.is_metrics_full

/-- `TableDataVector::clear` — every sequence is reset to length 0. -/
def TableDataVector.clear (_ : TableDataVector) : TableDataVector :=
  { measurement := [], system_metrics := [], alert_air := [], alert_th := [], monitor := [] }

/-- The `match msg` block of `dba_task` (`src/database/logic.rs` lines
43-65): push the record onto the sequence of its variant; the final
catch-all arm (which receives `Heartbeat`) changes nothing. -/
def dbaAppend (v : TableDataVector) : Message → TableDataVector
  | .Report report => { v with measurement := v.measurement ++ [report] }
  | .Monitor monitor => { v with monitor := v.monitor ++ [monitor] }
  | .Metrics metrics => { v with system_metrics := v.system_metrics ++ [metrics] }
  | .AlertAir alert => { v with alert_air := v.alert_air ++ [alert] }
  | .AlertTem alert => { v with alert_th := v.alert_th ++ [alert] }
  | .Heartbeat _ => v

/-- One iteration of the `dba_task` receive loop (`src/database/logic.rs`
lines 42-75): append, then if some sequence is full, pass a clone of the
whole buffer to `Repository::insert` and clear.  `insertOk` is the result
of that insert; the source matches on it only to log (`Ok(_) => {}`,
`Err(e) => error!(..)`), so the returned buffer and the flush do not
depend on it.  The second component lists the buffers handed to the
storage insert during this step. -/
def dbaStep (v : TableDataVector) (msg : Message) (insertOk : Bool) :
    TableDataVector × List TableDataVector :=
  let v2 := dbaAppend v msg
  let _ := insertOk
  if v2.is_some_vector_full then (v2.clear, [v2]) else (v2, [])

/-- `dba_task` run over a whole list of received messages, collecting
every buffer passed to the storage insert.  (`dbaStep` ignores the insert
outcome, so it is fixed to `true` here.) -/
def dbaRun (v : TableDataVector) : List Message → TableDataVector × List TableDataVector
  | [] => (v, [])
  | m :: rest =>
    let s := dbaStep v m true
    let r := dbaRun s.1 rest
    (r.1, s.2 ++ r.2)

/-- Tags for the five persisted telemetry variants (`Heartbeat` is not
persisted and has no tag). -/
inductive VTag where
  | meas | mon | metr | aair | ath
deriving Repr, DecidableEq

/-- The persisted variant a `Message` belongs to. -/
def Message.tag : Message → Option VTag
  | .Report _ => some .meas
  | .Monitor _ => some .mon
  | .Metrics _ => some .metr
  | .AlertAir _ => some .aair
  | .AlertTem _ => some .ath
  | .Heartbeat _ => none

/-- Length of the buffer sequence for a given variant tag. -/
def TableDataVector.seqLen (v : TableDataVector) : VTag → Nat
  | .meas => v.measurement.length
  | .mon => v.monitor.length
  | .metr => v.system_metrics.length
  | .aair => v.alert_air.length
  | .ath => v.alert_th.length

/-- A concrete measurement record used for witnesses. -/
def sampleMeasurement : Measurement :=
  { metadata := { sender_user_id := "hub", destination_id := "api", timestamp := 0 }
    network := "n1", pulse_counter := 0, pulse_max_duration := 0
    temperature := ⟨0⟩, humidity := ⟨0⟩, co2_ppm := ⟨0⟩, sample := 0 }

/-- A concrete heartbeat record used for witnesses. -/
def sampleHeartbeat : Heartbeat :=
  { metadata := { sender_user_id := "data_saver", destination_id := "all", timestamp := 0 }
    beat := true }

/-! ## Repository (`src/database/repository.rs`) -/

/-- One bulk `INSERT` statement issued by `Repository::insert`: the table
it targets together with the rows bound into it. -/
inductive Stmt where
  | measurement (rows : List Measurement)
  | monitor (rows : List Monitor)
  | alert_temp (rows : List AlertTh)
  | alert_air (rows : List AlertAir)
  | system_metrics (rows : List SystemMetrics)
deriving Repr, DecidableEq

/-- Whether a statement's row list is empty. -/
def Stmt.rowsEmpty : Stmt → Bool
  | .measurement rows => rows.isEmpty
  | .monitor rows => rows.isEmpty
  | .alert_temp rows => rows.isEmpty
  | .alert_air rows => rows.isEmpty
  | .system_metrics rows => rows.isEmpty

/-- The statements `Repository::insert` issues on the all-success path,
in the source's order (`src/database/repository.rs` lines 87-105): each
`if !tdv.x.is_empty { insert_x(..) }` contributes one bulk statement. -/
def insertStmts (tdv : TableDataVector) : List Stmt :=
  (if tdv.measurement.isEmpty then [] else [Stmt.measurement tdv.measurement]) ++
  (if tdv.monitor.isEmpty then [] else [Stmt.monitor tdv.monitor]) ++
  (if tdv.alert_th.isEmpty then [] else [Stmt.alert_temp tdv.alert_th]) ++
  (if tdv.alert_air.isEmpty then [] else [Stmt.alert_air tdv.alert_air]) ++
  (if tdv.system_metrics.isEmpty then [] else [Stmt.system_metrics tdv.system_metrics])

/-- Trace of a sequential insert run: the statements actually sent to the
database, the ones whose writes committed, and the overall result of
`Repository::insert` (`true` = `Ok(())`). -/
structure InsertTrace where
  attempted : List Stmt
  committed : List Stmt
  ok : Bool
deriving Repr, DecidableEq

/-- Sequential execution with early return on the first failure, as the
`?` operator does in `Repository::insert`: each statement runs as its own
implicit transaction (no cross-statement transaction), so a succeeding
statement commits immediately and a failing one stops the run. -/
def runInsert (fail : Stmt → Bool) : List Stmt → InsertTrace
  | [] => { attempted := [], committed := [], ok := true }
  | s :: rest =>
    if fail s then { attempted := [s], committed := [], ok := false }
    else
      let t := runInsert fail rest
      { attempted := s :: t.attempted, committed := s :: t.committed, ok := t.ok }

/-- `Repository::insert` (`src/database/repository.rs` lines 87-105),
parametrised by a per-statement failure oracle standing for the
database's response. -/
def repositoryInsert (fail : Stmt → Bool) (tdv : TableDataVector) : InsertTrace :=
  runInsert fail (insertStmts tdv)

/-- The five candidate statements of `Repository::insert` in source
order, before the emptiness guards. -/
def candidateStmts (tdv : TableDataVector) : List Stmt :=
  [Stmt.measurement tdv.measurement, Stmt.monitor tdv.monitor,
   Stmt.alert_temp tdv.alert_th, Stmt.alert_air tdv.alert_air,
   Stmt.system_metrics tdv.system_metrics]

/-! ## Inbound translator (`src/message/logic.rs`) -/

/-- Wire-format `Metadata` (generated from the proto definition); every
field is required at this level, but the records embed it as `Option`. -/
structure ProtoMetadata where
  sender_user_id : String
  destination_id : String
  timestamp : Int
deriving Repr, DecidableEq

/-- Wire-format `Measurement`. -/
structure ProtoMeasurement where
  metadata : Option ProtoMetadata
  network : String
  pulse_counter : Int
  pulse_max_duration : Int
  temperature : F32
  humidity : F32
  co2_ppm : F32
  sample : Nat
deriving Repr, DecidableEq

/-- Wire-format `Monitor`; `wifi_rssi` is an `int32` upstream. -/
structure ProtoMonitor where
  metadata : Option ProtoMetadata
  network : String
  mem_free : Int
  mem_free_hm : Int
  mem_free_block : Int
  mem_free_internal : Int
  stack_free_min_coll : Int
  stack_free_min_pub : Int
  stack_free_min_mic : Int
  stack_free_min_th : Int
  stack_free_min_air : Int
  stack_free_min_mon : Int
  wifi_ssid : String
  wifi_rssi : Int
  active_time : Int
deriving Repr, DecidableEq

/-- Wire-format `AlertAir`. -/
structure ProtoAlertAir where
  metadata : Option ProtoMetadata
  network : String
  co2_initial_ppm : F32
  co2_actual_ppm : F32
deriving Repr, DecidableEq

/-- Wire-format `AlertTh`. -/
structure ProtoAlertTh where
  metadata : Option ProtoMetadata
  network : String
  initial_temp : F32
  actual_temp : F32
deriving Repr, DecidableEq

/-- Wire-format `Metrics`; both Wi-Fi fields are plain `int32` on the
wire (not optional). -/
structure ProtoMetrics where
  metadata : Option ProtoMetadata
  uptime_seconds : Nat
  cpu_usage_percent : F32
  cpu_temp_celsius : F32
  ram_total_mb : Nat
  ram_used_mb : Nat
  sd_total_gb : Nat
  sd_used_gb : Nat
  sd_usage_percent : F32
  network_rx_bytes : Nat
  network_tx_bytes : Nat
  wifi_rssi : Int
  wifi_signal_dbm : Int
deriving Repr, DecidableEq

/-- The `oneof` payload of `DataSaverDownloadFromEdge`. -/
inductive FromEdgePayload where
  | measurement (m : ProtoMeasurement)
  | monitor (m : ProtoMonitor)
  | alertAir (a : ProtoAlertAir)
  | alertTh (a : ProtoAlertTh)
  | metrics (m : ProtoMetrics)
deriving Repr, DecidableEq

/-- Wire envelope `DataSaverDownloadFromEdge`. -/
structure DataSaverDownloadFromEdge where
  payload : Option FromEdgePayload
deriving Repr, DecidableEq

/-- The `oneof` payload of `DataSaverDownload`. -/
inductive DownloadPayload where
  | fromEdge (m : DataSaverDownloadFromEdge)
deriving Repr, DecidableEq

/-- Wire envelope `DataSaverDownload`. -/
structure DataSaverDownload where
  payload : Option DownloadPayload
deriving Repr, DecidableEq

/-- `InternalEvent` from `src/system/domain.rs`. -/
inductive InternalEvent where
  | IncomingMessage (m : DataSaverDownload)
deriving Repr, DecidableEq

/-- `extract_metadata` (`src/message/logic.rs` lines 256-268): convert the
proto metadata if present, report `none` (after a logged warning) if
absent. -/
def extract_metadata : Option ProtoMetadata → Option Metadata
  | some meta => some { sender_user_id := meta.sender_user_id
                        destination_id := meta.destination_id
                        timestamp := meta.timestamp }
  | none => none

/-- Rust's `as i8` narrowing applied to an `i32` value: keep the value
modulo 2^8 and reinterpret the residue as a signed byte. -/
def i32_as_i8 (x : Int) : Int :=
  (x + 128) % 256 - 128

/-- The body of the `message_download` receive loop for one incoming
event (`src/message/logic.rs` lines 107-219), returning the list of
domain messages it forwards to the `dba_task` channel.  A record whose
metadata is absent is dropped (`extract_metadata` returns `none`), so
nothing is forwarded for it. -/
def message_download_step : InternalEvent → List Message
  | .IncomingMessage msg =>
    match msg.payload with
    | none => []
    | some (.fromEdge msg_from_edge) =>
      match msg_from_edge.payload with
      | none => []
      | some inner =>
        match inner with
        | .measurement measurement =>
          match extract_metadata measurement.metadata with
          | none => []
          | some metadata =>
            [Message.Report { metadata
                              network := measurement.network
                              pulse_counter := measurement.pulse_counter
                              pulse_max_duration := measurement.pulse_max_duration
                              temperature := measurement.temperature
                              humidity := measurement.humidity
                              co2_ppm := measurement.co2_ppm
                              sample := measurement.sample }]
        | .monitor monitor =>
          match extract_metadata monitor.metadata with
          | none => []
          | some metadata =>
            [Message.Monitor { metadata
                               network := monitor.network
                               mem_free := monitor.mem_free
                               mem_free_hm := monitor.mem_free_hm
                               mem_free_block := monitor.mem_free_block
                               mem_free_internal := monitor.mem_free_internal
                               stack_free_min_coll := monitor.stack_free_min_coll
                               stack_free_min_pub := monitor.stack_free_min_pub
                               stack_free_min_mic := monitor.stack_free_min_mic
                               stack_free_min_th := monitor.stack_free_min_th
                               stack_free_min_air := monitor.stack_free_min_air
                               stack_free_min_mon := monitor.stack_free_min_mon
                               wifi_ssid := monitor.wifi_ssid
                               wifi_rssi := i32_as_i8 monitor.wifi_rssi
                               active_time := monitor.active_time }]
        | .alertAir alert_air =>
          match extract_metadata alert_air.metadata with
          | none => []
          | some metadata =>
            [Message.AlertAir { metadata
                                network := alert_air.network
                                co2_initial_ppm := alert_air.co2_initial_ppm
                                co2_actual_ppm := alert_air.co2_actual_ppm }]
        | .alertTh alert_th =>
          match extract_metadata alert_th.metadata with
          | none => []
          | some metadata =>
            [Message.AlertTem { metadata
                                network := alert_th.network
                                initial_temp := alert_th.initial_temp
                                actual_temp := alert_th.actual_temp }]
        | .metrics metrics =>
          match extract_metadata metrics.metadata with
          | none => []
          | some metadata =>
            [Message.Metrics { metadata
                               uptime_seconds := metrics.uptime_seconds
                               cpu_usage_percent := metrics.cpu_usage_percent
                               cpu_temp_celsius := metrics.cpu_temp_celsius
                               ram_total_mb := metrics.ram_total_mb
                               ram_used_mb := metrics.ram_used_mb
                               sd_total_gb := metrics.sd_total_gb
                               sd_used_gb := metrics.sd_used_gb
                               sd_usage_percent := metrics.sd_usage_percent
                               network_rx_bytes := metrics.network_rx_bytes
                               network_tx_bytes := metrics.network_tx_bytes
                               wifi_rssi := some metrics.wifi_rssi
                               wifi_signal_dbm := some metrics.wifi_signal_dbm }]

/-- The metadata field of whichever variant a wire payload carries. -/
def FromEdgePayload.wireMetadata : FromEdgePayload → Option ProtoMetadata
  | .measurement m => m.metadata
  | .monitor m => m.metadata
  | .alertAir a => a.metadata
  | .alertTh a => a.metadata
  | .metrics m => m.metadata

/-- A well-formed download envelope around one from-edge payload. -/
def mkDownloadEvent (p : FromEdgePayload) : InternalEvent :=
  .IncomingMessage { payload := some (.fromEdge { payload := some p }) }

/-- The metadata carried by a forwarded domain message. -/
def Message.moMetadata : Message → Metadata
  | .Report m => m.metadata
  | .Monitor m => m.metadata
  | .AlertAir a => a.metadata
  | .AlertTem a => a.metadata
  | .Heartbeat h => h.metadata
  | .Metrics s => s.metadata

/-! ## Heartbeat generator (`src/heartbeat/logic.rs`, `src/heartbeat/domain.rs`) -/

/-- `Event` from `src/heartbeat/domain.rs`; the timer duration is carried
as whole seconds (the source builds it with `Duration::from_secs`). -/
inductive Event where
  | Timeout
  | InitTimer (secs : Nat)
deriving Repr, DecidableEq

/-- The startup action of `run_heartbeat` (`src/heartbeat/logic.rs` line
51): one arm command carrying the configured interval is sent to the
watchdog before the receive loop starts. -/
def heartbeatInit (interval : Nat) : List Event :=
  [Event.InitTimer interval]

/-- One iteration of the `run_heartbeat` receive loop
(`src/heartbeat/logic.rs` lines 55-78): on `Timeout`, build a heartbeat
record stamped with the clock reading `now` and the fixed identity, send
it toward the outbound translator, and re-arm the watchdog; any other
event falls into the silent catch-all.  Returns the messages sent to the
translator queue and the events sent to the watchdog queue. -/
def heartbeatStep (interval : Nat) (now : Int) : Event → List Message × List Event
  | .Timeout =>
    ([Message.Heartbeat
        { metadata := { sender_user_id := "data_saver", destination_id := "all",
                        timestamp := now }
          beat := true }],
     [Event.InitTimer interval])
  | _ => ([], [])

/-! ## Stream client state machine (`src/grpc_service/logic.rs`) -/

/-- `StateClient` from `src/grpc_service/logic.rs`. -/
inductive StateClient where
  | Init | Work | Error
deriving Repr, DecidableEq

/-- The mutable state of `grpc_task`: the current machine state plus the
session's outbound sender and inbound stream cursor, both held as
`Option` exactly as in the source (handles are abstracted to ids). -/
structure GrpcState where
  state : StateClient
  tx_session : Option Nat
  inbound_stream : Option Nat
deriving Repr, DecidableEq

/-- What one `Init` iteration observes: the channel creation and the
stream-open each may fail, or both succeed yielding a session. -/
inductive InitOutcome where
  | channelErr
  | streamErr
  | connected (sender cursor : Nat)
deriving Repr, DecidableEq

/-- What one `Work` iteration's `select!` observes. -/
inductive WorkEvent where
  | upstreamMsg (sendOk : Bool)
  | upstreamClosed
  | downstreamOk (fwdOk : Bool)
  | downstreamErr
  | downstreamClosed
deriving Repr, DecidableEq

/-- The effect of one loop iteration of `grpc_task`: the successor state,
whether the task returned (clean shutdown), and the backoff slept during
the iteration, in seconds. -/
structure StepResult where
  next : GrpcState
  terminated : Bool
  backoffSecs : Option Nat
deriving Repr, DecidableEq

/-- The `StateClient::Init` arm (`src/grpc_service/logic.rs` lines
95-124). -/
def initStep (s : GrpcState) : InitOutcome → StepResult
  | .connected sender cursor =>
    { next := { state := .Work, tx_session := some sender, inbound_stream := some cursor }
      terminated := false, backoffSecs := none }
  | .channelErr =>
    { next := { s with state := .Error }, terminated := false, backoffSecs := none }
  | .streamErr =>
    { next := { s with state := .Error }, terminated := false, backoffSecs := none }

/-- The `StateClient::Work` arm (`src/grpc_service/logic.rs` lines
126-168).  With a valid sender/cursor pair: an upstream send failure, a
downstream decode error, or a peer close moves to `Error` (the session
options are left in place — they are only released in the `Error` arm); a
successful upstream send or downstream forward (even one whose internal
forward fails, which is only logged) stays in `Work`; a closed upstream
queue returns from the task.  Without a valid pair the arm falls back to
`Init`. -/
def workStep (s : GrpcState) (ev : WorkEvent) : StepResult :=
  match s.tx_session, s.inbound_stream with
  | some tx, some cur =>
    match ev with
    | .upstreamMsg true =>
      { next := { state := .Work, tx_session := some tx, inbound_stream := some cur }
        terminated := false, backoffSecs := none }
    | .upstreamMsg false =>
      { next := { state := .Error, tx_session := some tx, inbound_stream := some cur }
        terminated := false, backoffSecs := none }
    | .upstreamClosed =>
      { next := { state := .Work, tx_session := some tx, inbound_stream := some cur }
        terminated := true, backoffSecs := none }
    | .downstreamOk _ =>
      { next := { state := .Work, tx_session := some tx, inbound_stream := some cur }
        terminated := false, backoffSecs := none }
    | .downstreamErr =>
      { next := { state := .Error, tx_session := some tx, inbound_stream := some cur }
        terminated := false, backoffSecs := none }
    | .downstreamClosed =>
      { next := { state := .Error, tx_session := some tx, inbound_stream := some cur }
        terminated := false, backoffSecs := none }
  | _, _ =>
    { next := { s with state := .Init }, terminated := false, backoffSecs := none }

/-- The `StateClient::Error` arm (`src/grpc_service/logic.rs` lines
170-177): drop the session sender and the inbound cursor, sleep the
fixed 5-second backoff, go back to `Init`. -/
def errorStep (_ : GrpcState) : StepResult :=
  { next := { state := .Init, tx_session := none, inbound_stream := none }
    terminated := false, backoffSecs := some 5 }

/-- An observable event for one iteration of the `grpc_task` loop. -/
inductive GrpcEv where
  | init (o : InitOutcome)
  | work (e : WorkEvent)
  | err
deriving Repr, DecidableEq

/-- One iteration of the `grpc_task` loop: dispatch on the current state;
an event of the wrong kind for the state cannot occur (`none`). -/
def grpcStep (s : GrpcState) (ev : GrpcEv) : Option StepResult :=
  match s.state, ev with
  | .Init, .init o => some (initStep s o)
  | .Work, .work e => some (workStep s e)
  | .Error, .err => some (errorStep s)
  | _, _ => none

/-! ## Channel capacities (`src/channels/domain.rs`, `src/main.rs`) -/

/-- The capacities of the six queues, one field per channel pair of the
`Channels` struct. -/
structure ChannelCaps where
  heartbeat_to_watchdog : Nat
  watchdog_to_heartbeat : Nat
  heartbeat_to_upload_message : Nat
  upload_message_to_grpc : Nat
  download_message_to_dba : Nat
  grpc_to_download_message : Nat
deriving Repr, DecidableEq

/-- `Channels::new` (`src/channels/domain.rs` lines 52-75): control-plane
channels get capacity 10, data-plane channels capacity 200. -/
def channelsNew : ChannelCaps :=
  { heartbeat_to_watchdog := 10
    watchdog_to_heartbeat := 10
    heartbeat_to_upload_message := 10
    upload_message_to_grpc := 200
    download_message_to_dba := 200
    grpc_to_download_message := 200 }

/-- The channels `main` actually constructs at startup (`src/main.rs`
lines 31-36): six direct `mpsc::channel` calls, all with capacity 10;
`Channels::new` is never called there. -/
def mainChannelCaps : ChannelCaps :=
  { heartbeat_to_watchdog := 10
    watchdog_to_heartbeat := 10
    heartbeat_to_upload_message := 10
    upload_message_to_grpc := 10
    download_message_to_dba := 10
    grpc_to_download_message := 10 }

/-! ## Concrete inputs used by the witnesses -/

/-- A buffer holding 99 measurements: one more append reaches the batch
threshold. -/
def v99 : TableDataVector :=
  { TableDataVector.new with measurement := List.replicate 99 sampleMeasurement }

/-- A wire measurement that arrived without its mandatory metadata. -/
def orphanPayload : FromEdgePayload :=
  .measurement { metadata := none, network := "n1", pulse_counter := 0,
                 pulse_max_duration := 0, temperature := ⟨0⟩, humidity := ⟨0⟩,
                 co2_ppm := ⟨0⟩, sample := 0 }

/-- A well-formed wire metrics record. -/
def sampleProtoMetrics : ProtoMetrics :=
  { metadata := some { sender_user_id := "edge", destination_id := "api", timestamp := 7 }
    uptime_seconds := 1, cpu_usage_percent := ⟨0⟩, cpu_temp_celsius := ⟨0⟩
    ram_total_mb := 4, ram_used_mb := 2, sd_total_gb := 32, sd_used_gb := 8
    sd_usage_percent := ⟨0⟩, network_rx_bytes := 0, network_tx_bytes := 0
    wifi_rssi := -55, wifi_signal_dbm := -60 }

/-- The domain record the translator produces from `sampleProtoMetrics`. -/
def sampleMetricsOut : SystemMetrics :=
  { metadata := { sender_user_id := "edge", destination_id := "api", timestamp := 7 }
    uptime_seconds := 1, cpu_usage_percent := ⟨0⟩, cpu_temp_celsius := ⟨0⟩
    ram_total_mb := 4, ram_used_mb := 2, sd_total_gb := 32, sd_used_gb := 8
    sd_usage_percent := ⟨0⟩, network_rx_bytes := 0, network_tx_bytes := 0
    wifi_rssi := some (-55), wifi_signal_dbm := some (-60) }

/-! ## Helper lemmas about the batch buffer -/

/-- The flush trigger holds exactly when one of the five sequences has
length `BATCH_SIZE`. -/
theorem is_some_vector_full_iff (v : TableDataVector) :
    v.is_some_vector_full = true ↔
      (v.measurement.length = BATCH_SIZE ∨ v.alert_air.length = BATCH_SIZE ∨
       v.alert_th.length = BATCH_SIZE ∨ v.monitor.length = BATCH_SIZE ∨
       v.system_metrics.length = BATCH_SIZE) := by
  simp [TableDataVector.is_some_vector_full, TableDataVector.is_measurement_full,
        TableDataVector.is_alert_air_full, TableDataVector.is_alert_th_full,
        TableDataVector.is_monitor_full, TableDataVector.is_metrics_full,
        Bool.or_eq_true, beq_iff_eq, or_assoc]

/-- The flush trigger in terms of `seqLen`. -/
theorem full_iff_exists (v : TableDataVector) :
    v.is_some_vector_full = true ↔ ∃ t, v.seqLen t = BATCH_SIZE := by
  rw [is_some_vector_full_iff]
  constructor
  · rintro (h | h | h | h | h)
    · exact ⟨VTag.meas, h⟩
    · exact ⟨VTag.aair, h⟩
    · exact ⟨VTag.ath, h⟩
    · exact ⟨VTag.mon, h⟩
    · exact ⟨VTag.metr, h⟩
  · rintro ⟨t, h⟩
    cases t
    · exact Or.inl h
    · exact Or.inr (Or.inr (Or.inr (Or.inl h)))
    · exact Or.inr (Or.inr (Or.inr (Or.inr h)))
    · exact Or.inr (Or.inl h)
    · exact Or.inr (Or.inr (Or.inl h))

/-- Appending a record of variant `t` lengthens exactly that sequence. -/
theorem dbaAppend_seqLen_same (v : TableDataVector) (m : Message) (t : VTag)
    (h : m.tag = some t) : (dbaAppend v m).seqLen t = v.seqLen t + 1 := by
  cases m <;> simp [Message.tag] at h <;> subst h <;>
    simp [dbaAppend, TableDataVector.seqLen]

/-- Appending a record of variant `t` leaves every other sequence
untouched. -/
theorem dbaAppend_seqLen_other (v : TableDataVector) (m : Message) (t t' : VTag)
    (h : m.tag = some t) (hne : t' ≠ t) :
    (dbaAppend v m).seqLen t' = v.seqLen t' := by
  cases m <;> simp [Message.tag] at h <;> subst h <;>
    cases t' <;> simp_all [dbaAppend, TableDataVector.seqLen]

/-- Appending grows any sequence by at most one. -/
theorem dbaAppend_seqLen_le (v : TableDataVector) (m : Message) (t : VTag) :
    (dbaAppend v m).seqLen t ≤ v.seqLen t + 1 := by
  cases m <;> cases t <;> simp [dbaAppend, TableDataVector.seqLen]

/-- The `dba_task` loop invariant: starting below the threshold, every
sequence stays strictly below the threshold at the top of the loop. -/
theorem dbaRun_seqLen_lt (msgs : List Message) :
    ∀ (v : TableDataVector), (∀ t, v.seqLen t < BATCH_SIZE) →
      ∀ t, (dbaRun v msgs).1.seqLen t < BATCH_SIZE := by
  induction msgs with
  | nil => intro v hv t; simpa [dbaRun] using hv t
  | cons m rest ih =>
    intro v hv t
    by_cases hfull : (dbaAppend v m).is_some_vector_full
    · have hrun : dbaRun v (m :: rest) =
          ((dbaRun ((dbaAppend v m).clear) rest).1,
           [dbaAppend v m] ++ (dbaRun ((dbaAppend v m).clear) rest).2) := by
        simp [dbaRun, dbaStep, hfull]
      rw [hrun]
      exact ih ((dbaAppend v m).clear)
        (by intro t'; cases t' <;> simp [TableDataVector.clear, TableDataVector.seqLen, BATCH_SIZE]) t
    · have hrun : dbaRun v (m :: rest) =
          ((dbaRun (dbaAppend v m) rest).1, (dbaRun (dbaAppend v m) rest).2) := by
        simp [dbaRun, dbaStep, hfull]
      rw [hrun]
      refine ih (dbaAppend v m) ?_ t
      intro t'
      have hle := dbaAppend_seqLen_le v m t'
      have hne : (dbaAppend v m).seqLen t' ≠ BATCH_SIZE := by
        intro he
        exact hfull ((full_iff_exists _).mpr ⟨t', he⟩)
      have := hv t'
      omega

/-- Core single-variant run lemma: feeding only records of variant `t`,
with total count keeping the sequence strictly below the threshold,
never flushes and only grows that one sequence. -/
theorem dbaRun_single_variant (t : VTag) (msgs : List Message) :
    ∀ (v : TableDataVector), (∀ m ∈ msgs, m.tag = some t) →
      (∀ t', t' ≠ t → v.seqLen t' = 0) →
      v.seqLen t + msgs.length < BATCH_SIZE →
      (dbaRun v msgs).2 = [] ∧
      (dbaRun v msgs).1.seqLen t = v.seqLen t + msgs.length ∧
      (∀ t', t' ≠ t → (dbaRun v msgs).1.seqLen t' = 0) := by
  induction msgs with
  | nil =>
    intro v _ hoth _
    exact ⟨rfl, by simp [dbaRun], fun t' ht' => by simpa [dbaRun] using hoth t' ht'⟩
  | cons m rest ih =>
    intro v hall hoth hlt
    have hm : m.tag = some t := hall m (by simp)
    have hrest : ∀ x ∈ rest, x.tag = some t := fun x hx => hall x (by simp [hx])
    have hsame := dbaAppend_seqLen_same v m t hm
    have hoth2 : ∀ t', t' ≠ t → (dbaAppend v m).seqLen t' = 0 := fun t' ht' =>
      (dbaAppend_seqLen_other v m t t' hm ht').trans (hoth t' ht')
    have hlen : (m :: rest).length = rest.length + 1 := by simp
    have hnotfull : ¬ (dbaAppend v m).is_some_vector_full = true := by
      intro hfull
      obtain ⟨t', ht'⟩ := (full_iff_exists _).mp hfull
      by_cases hcase : t' = t
      · subst hcase; rw [hsame] at ht'; rw [hlen] at hlt; omega
      · rw [hoth2 t' hcase] at ht'; simp [BATCH_SIZE] at ht'
    have hrun : dbaRun v (m :: rest) =
        ((dbaRun (dbaAppend v m) rest).1, (dbaRun (dbaAppend v m) rest).2) := by
      simp [dbaRun, dbaStep, hnotfull]
    have hih := ih (dbaAppend v m) hrest hoth2 (by rw [hsame]; rw [hlen] at hlt; omega)
    rw [hrun]
    exact ⟨hih.1, by rw [hih.2.1, hsame, hlen]; omega, hih.2.2⟩

/-! ## Claim theorems for the batch buffer -/

/-- C1: after every append of a telemetry record, if one of the five
sequences has reached the batch threshold (100), exactly one flush
occurs — the whole appended buffer is passed to the storage insert — and
immediately afterwards all five sequences are empty, whatever the insert
returned (the result argument `insertOk` is universally quantified and
absent from the conclusion). -/
theorem dba_flush_on_threshold (v : TableDataVector) (msg : Message) (insertOk : Bool)
    (h : (dbaAppend v msg).measurement.length = BATCH_SIZE ∨
         (dbaAppend v msg).alert_air.length = BATCH_SIZE ∨
         (dbaAppend v msg).alert_th.length = BATCH_SIZE ∨
         (dbaAppend v msg).monitor.length = BATCH_SIZE ∨
         (dbaAppend v msg).system_metrics.length = BATCH_SIZE) :
    (dbaStep v msg insertOk).2 = [dbaAppend v msg] ∧
    (dbaStep v msg insertOk).1.measurement = [] ∧
    (dbaStep v msg insertOk).1.system_metrics = [] ∧
    (dbaStep v msg insertOk).1.alert_air = [] ∧
    (dbaStep v msg insertOk).1.alert_th = [] ∧
    (dbaStep v msg insertOk).1.monitor = [] := by
  have hfull : (dbaAppend v msg).is_some_vector_full = true :=
    (is_some_vector_full_iff _).mpr h
  simp [dbaStep, hfull, TableDataVector.clear]

/-- Witness for C1: appending the hundredth measurement to a buffer of 99
triggers the flush with all five sequences emptied. -/
theorem dba_flush_on_threshold_witness :
    ((dbaAppend v99 (Message.Report sampleMeasurement)).measurement.length = BATCH_SIZE ∨
     (dbaAppend v99 (Message.Report sampleMeasurement)).alert_air.length = BATCH_SIZE ∨
     (dbaAppend v99 (Message.Report sampleMeasurement)).alert_th.length = BATCH_SIZE ∨
     (dbaAppend v99 (Message.Report sampleMeasurement)).monitor.length = BATCH_SIZE ∨
     (dbaAppend v99 (Message.Report sampleMeasurement)).system_metrics.length = BATCH_SIZE) ∧
    ((dbaStep v99 (Message.Report sampleMeasurement) false).2 =
        [dbaAppend v99 (Message.Report sampleMeasurement)] ∧
     (dbaStep v99 (Message.Report sampleMeasurement) false).1.measurement = [] ∧
     (dbaStep v99 (Message.Report sampleMeasurement) false).1.system_metrics = [] ∧
     (dbaStep v99 (Message.Report sampleMeasurement) false).1.alert_air = [] ∧
     (dbaStep v99 (Message.Report sampleMeasurement) false).1.alert_th = [] ∧
     (dbaStep v99 (Message.Report sampleMeasurement) false).1.monitor = []) :=
  ⟨Or.inl (by decide),
   dba_flush_on_threshold v99 (Message.Report sampleMeasurement) false (Or.inl (by decide))⟩

/-- C4: feeding N records of one variant with N below the threshold, the
buffer ends with exactly N records in that variant's sequence, all other
sequences empty, and zero storage inserts issued. -/
theorem dba_below_threshold_no_flush (t : VTag) (msgs : List Message)
    (hall : ∀ m ∈ msgs, m.tag = some t) (hlen : msgs.length < BATCH_SIZE) :
    (dbaRun TableDataVector.new msgs).2 = [] ∧
    (dbaRun TableDataVector.new msgs).1.seqLen t = msgs.length ∧
    (∀ t', t' ≠ t → (dbaRun TableDataVector.new msgs).1.seqLen t' = 0) := by
  have h0 : ∀ t', TableDataVector.new.seqLen t' = 0 := by
    intro t'; cases t' <;> rfl
  have h := dbaRun_single_variant t msgs TableDataVector.new hall
    (fun t' _ => h0 t') (by rw [h0 t]; omega)
  exact ⟨h.1, by rw [h.2.1, h0 t]; omega, h.2.2⟩

/-- Witness for C4: one measurement record, one pending entry, no
flush. -/
theorem dba_below_threshold_no_flush_witness :
    (∀ m ∈ [Message.Report sampleMeasurement], m.tag = some VTag.meas) ∧
    ([Message.Report sampleMeasurement].length < BATCH_SIZE) ∧
    ((dbaRun TableDataVector.new [Message.Report sampleMeasurement]).2 = [] ∧
     (dbaRun TableDataVector.new [Message.Report sampleMeasurement]).1.seqLen VTag.meas =
        [Message.Report sampleMeasurement].length ∧
     (∀ t', t' ≠ VTag.meas →
        (dbaRun TableDataVector.new [Message.Report sampleMeasurement]).1.seqLen t' = 0)) :=
  ⟨by decide, by decide,
   dba_below_threshold_no_flush VTag.meas [Message.Report sampleMeasurement]
     (by decide) (by decide)⟩

/-- C9: in any actual run of the batch writer (a buffer reached from the
empty one), a received `Heartbeat` message falls into the silent
catch-all: the buffer is returned unchanged and no storage insert is
issued. -/
theorem dba_heartbeat_frame (msgs : List Message) (v : TableDataVector)
    (hreach : v = (dbaRun TableDataVector.new msgs).1)
    (hb : Heartbeat) (insertOk : Bool) :
    dbaStep v (Message.Heartbeat hb) insertOk = (v, []) := by
  subst hreach
  have hlt := dbaRun_seqLen_lt msgs TableDataVector.new
    (by intro t; cases t <;> simp [TableDataVector.new, TableDataVector.seqLen, BATCH_SIZE])
  have hnotfull : ¬ ((dbaRun TableDataVector.new msgs).1).is_some_vector_full = true := by
    intro hf
    obtain ⟨t, ht⟩ := (full_iff_exists _).mp hf
    have := hlt t; omega
  simp [dbaStep, dbaAppend, hnotfull]

/-- Witness for C9: the freshly started writer ignores a heartbeat. -/
theorem dba_heartbeat_frame_witness :
    dbaStep (dbaRun TableDataVector.new []).1 (Message.Heartbeat sampleHeartbeat) true =
      ((dbaRun TableDataVector.new []).1, []) :=
  dba_heartbeat_frame [] (dbaRun TableDataVector.new []).1 rfl sampleHeartbeat true

/-! ## Repository insert (C2) -/

/-- Closed form of the sequential early-return executor: committed
statements are the longest failure-free prefix, at most one further
statement (the failing one) is attempted, and the run succeeds exactly
when every statement succeeds. -/
theorem runInsert_eq (fail : Stmt → Bool) (l : List Stmt) :
    runInsert fail l =
      { attempted := l.takeWhile (fun s => !fail s) ++
          (l.dropWhile (fun s => !fail s)).take 1
        committed := l.takeWhile (fun s => !fail s)
        ok := l.all (fun s => !fail s) } := by
  induction l with
  | nil => rfl
  | cons s rest ih =>
    by_cases h : fail s <;>
      simp [runInsert, h, ih, List.takeWhile_cons, List.dropWhile_cons]

/-- The statements `Repository::insert` issues are exactly the non-empty
candidates, kept in the source's fixed order. -/
theorem insertStmts_eq_filter (tdv : TableDataVector) :
    insertStmts tdv = (candidateStmts tdv).filter (fun s => !s.rowsEmpty) := by
  cases h1 : tdv.measurement.isEmpty <;> cases h2 : tdv.monitor.isEmpty <;>
    cases h3 : tdv.alert_th.isEmpty <;> cases h4 : tdv.alert_air.isEmpty <;>
    cases h5 : tdv.system_metrics.isEmpty <;>
      simp [insertStmts, candidateStmts, Stmt.rowsEmpty, List.filter,
            h1, h2, h3, h4, h5]

/-- C2: the repository insert issues one bulk statement per non-empty
sequence, sequentially in the fixed source order, skipping empty
sequences; the committed statements are exactly the failure-free prefix
(earlier writes stay committed on a later failure, there is no
cross-type transaction), only the first failing statement is attempted
beyond that prefix and nothing after it runs, and the call succeeds
exactly when every issued statement does. -/
theorem repository_insert_spec (fail : Stmt → Bool) (tdv : TableDataVector) :
    insertStmts tdv = (candidateStmts tdv).filter (fun s => !s.rowsEmpty) ∧
    (repositoryInsert fail tdv).committed =
      (insertStmts tdv).takeWhile (fun s => !fail s) ∧
    (repositoryInsert fail tdv).attempted =
      (insertStmts tdv).takeWhile (fun s => !fail s) ++
        ((insertStmts tdv).dropWhile (fun s => !fail s)).take 1 ∧
    (repositoryInsert fail tdv).ok = (insertStmts tdv).all (fun s => !fail s) :=
  ⟨insertStmts_eq_filter tdv,
   by rw [repositoryInsert, runInsert_eq],
   by rw [repositoryInsert, runInsert_eq],
   by rw [repositoryInsert, runInsert_eq]⟩

/-! ## Inbound translator (C3, C8, C10) -/

/-- C3: an inbound wire record of any of the five variants whose
metadata is absent is discarded — the translator forwards nothing, so
the batch buffer is unchanged by the event — and every message the
translator does forward carries the (necessarily present) wire metadata
converted field by field. -/
theorem translator_requires_metadata (p : FromEdgePayload) :
    (p.wireMetadata = none →
      message_download_step (mkDownloadEvent p) = [] ∧
      ∀ v : TableDataVector, dbaRun v (message_download_step (mkDownloadEvent p)) = (v, [])) ∧
    (∀ m ∈ message_download_step (mkDownloadEvent p),
      ∃ pm, p.wireMetadata = some pm ∧
        m.moMetadata = { sender_user_id := pm.sender_user_id
                         destination_id := pm.destination_id
                         timestamp := pm.timestamp }) := by
  cases p with
  | measurement payloadRec =>
    cases hm : payloadRec.metadata <;>
      simp [mkDownloadEvent, message_download_step, extract_metadata,
            FromEdgePayload.wireMetadata, hm, Message.moMetadata, dbaRun]
  | monitor payloadRec =>
    cases hm : payloadRec.metadata <;>
      simp [mkDownloadEvent, message_download_step, extract_metadata,
            FromEdgePayload.wireMetadata, hm, Message.moMetadata, dbaRun]
  | alertAir payloadRec =>
    cases hm : payloadRec.metadata <;>
      simp [mkDownloadEvent, message_download_step, extract_metadata,
            FromEdgePayload.wireMetadata, hm, Message.moMetadata, dbaRun]
  | alertTh payloadRec =>
    cases hm : payloadRec.metadata <;>
      simp [mkDownloadEvent, message_download_step, extract_metadata,
            FromEdgePayload.wireMetadata, hm, Message.moMetadata, dbaRun]
  | metrics payloadRec =>
    cases hm : payloadRec.metadata <;>
      simp [mkDownloadEvent, message_download_step, extract_metadata,
            FromEdgePayload.wireMetadata, hm, Message.moMetadata, dbaRun]

/-- Witness for C3: a measurement without metadata is dropped whole. -/
theorem translator_requires_metadata_witness :
    message_download_step (mkDownloadEvent orphanPayload) = [] :=
  ((translator_requires_metadata orphanPayload).1 rfl).1

/-- C8: the translator narrows the 32-bit wire `wifi_rssi` of a Monitor
record with two's-complement truncation — the result is congruent to the
input modulo 2^8 and lies in the signed byte range — while copying every
other field unchanged; at the out-of-range input 300 it yields 44, not
the saturation value 127. -/
theorem monitor_narrowing (pm : ProtoMetadata) (network wifi_ssid : String)
    (mem_free mem_free_hm mem_free_block mem_free_internal
     stack_free_min_coll stack_free_min_pub stack_free_min_mic
     stack_free_min_th stack_free_min_air stack_free_min_mon
     wifi_rssi active_time : Int) :
    message_download_step (mkDownloadEvent (.monitor
      { metadata := some pm, network := network, mem_free := mem_free
        mem_free_hm := mem_free_hm, mem_free_block := mem_free_block
        mem_free_internal := mem_free_internal
        stack_free_min_coll := stack_free_min_coll
        stack_free_min_pub := stack_free_min_pub
        stack_free_min_mic := stack_free_min_mic
        stack_free_min_th := stack_free_min_th
        stack_free_min_air := stack_free_min_air
        stack_free_min_mon := stack_free_min_mon
        wifi_ssid := wifi_ssid, wifi_rssi := wifi_rssi
        active_time := active_time })) =
      [Message.Monitor
        { metadata := { sender_user_id := pm.sender_user_id
                        destination_id := pm.destination_id
                        timestamp := pm.timestamp }
          network := network, mem_free := mem_free, mem_free_hm := mem_free_hm
          mem_free_block := mem_free_block, mem_free_internal := mem_free_internal
          stack_free_min_coll := stack_free_min_coll
          stack_free_min_pub := stack_free_min_pub
          stack_free_min_mic := stack_free_min_mic
          stack_free_min_th := stack_free_min_th
          stack_free_min_air := stack_free_min_air
          stack_free_min_mon := stack_free_min_mon
          wifi_ssid := wifi_ssid, wifi_rssi := i32_as_i8 wifi_rssi
          active_time := active_time }] ∧
    (∀ x : Int, -128 ≤ i32_as_i8 x ∧ i32_as_i8 x < 128 ∧
      (256 : Int) ∣ (x - i32_as_i8 x)) ∧
    i32_as_i8 300 = 44 ∧ ¬ i32_as_i8 300 = 127 := by
  refine ⟨rfl, ?_, by decide, by decide⟩
  intro x
  refine ⟨?_, ?_, ⟨(x + 128) / 256, ?_⟩⟩ <;> unfold i32_as_i8 <;> omega

/-- C10: every `SystemMetrics` record the inbound translator produces has
both optional Wi-Fi fields populated: it wraps the plain wire integers in
`Some` and can never emit `None` for them. -/
theorem metrics_wifi_always_some (ev : InternalEvent) (sm : SystemMetrics)
    (h : Message.Metrics sm ∈ message_download_step ev) :
    sm.wifi_rssi.isSome = true ∧ sm.wifi_signal_dbm.isSome = true := by
  obtain ⟨⟨pay⟩⟩ := ev
  match pay with
  | none => simp [message_download_step] at h
  | some (.fromEdge ⟨none⟩) => simp [message_download_step] at h
  | some (.fromEdge ⟨some inner⟩) =>
    cases inner with
    | measurement payloadRec =>
      cases hm : payloadRec.metadata <;>
        simp [message_download_step, extract_metadata, hm] at h
    | monitor payloadRec =>
      cases hm : payloadRec.metadata <;>
        simp [message_download_step, extract_metadata, hm] at h
    | alertAir payloadRec =>
      cases hm : payloadRec.metadata <;>
        simp [message_download_step, extract_metadata, hm] at h
    | alertTh payloadRec =>
      cases hm : payloadRec.metadata <;>
        simp [message_download_step, extract_metadata, hm] at h
    | metrics payloadRec =>
      cases hm : payloadRec.metadata with
      | none => simp [message_download_step, extract_metadata, hm] at h
      | some meta =>
        simp [message_download_step, extract_metadata, hm] at h
        subst h
        simp

/-- Witness for C10: the translated sample metrics record has both Wi-Fi
fields populated. -/
theorem metrics_wifi_always_some_witness :
    sampleMetricsOut.wifi_rssi.isSome = true ∧
    sampleMetricsOut.wifi_signal_dbm.isSome = true :=
  metrics_wifi_always_some (mkDownloadEvent (.metrics sampleProtoMetrics))
    sampleMetricsOut (by decide)

/-! ## Heartbeat generator (C6) -/

/-- C6: on startup the generator immediately sends one arm command with
the configured interval; on each timeout it forwards exactly one
heartbeat record — `beat` true, the clock reading as timestamp, the
fixed sender identity — to the outbound translator queue and re-arms the
watchdog with the same interval. -/
theorem heartbeat_protocol (interval : Nat) (now : Int) :
    heartbeatInit interval = [Event.InitTimer interval] ∧
    (∃ hb : Heartbeat,
      (heartbeatStep interval now Event.Timeout).1 = [Message.Heartbeat hb] ∧
      hb.beat = true ∧ hb.metadata.timestamp = now ∧
      hb.metadata.sender_user_id = "data_saver" ∧
      hb.metadata.destination_id = "all") ∧
    (heartbeatStep interval now Event.Timeout).2 = [Event.InitTimer interval] :=
  ⟨rfl, ⟨_, rfl, rfl, rfl, rfl, rfl⟩, rfl⟩

/-! ## Stream client state machine (C5) -/

/-- C5: from the `Error` state, the only possible step releases the
session's outbound sender and inbound stream cursor, sleeps the fixed
5-second backoff, and moves to `Init` — never to `Work` and never
terminating — so every failure drives the Init-Error-Init retry cycle. -/
theorem error_state_backoff_to_init (s : GrpcState) (ev : GrpcEv) (r : StepResult)
    (hs : s.state = StateClient.Error) (hr : grpcStep s ev = some r) :
    r.next.tx_session = none ∧ r.next.inbound_stream = none ∧
    r.backoffSecs = some 5 ∧ r.next.state = StateClient.Init ∧
    r.next.state ≠ StateClient.Work ∧ r.terminated = false := by
  unfold grpcStep at hr
  rw [hs] at hr
  cases ev with
  | init o => simp at hr
  | work e => simp at hr
  | err =>
    simp at hr
    subst hr
    simp [errorStep]

/-- Witness for C5: a concrete errored session is torn down and returns
to `Init` after the 5-second backoff. -/
theorem error_state_backoff_to_init_witness :
    (({ state := StateClient.Error, tx_session := some 1,
        inbound_stream := some 2 } : GrpcState).state = StateClient.Error) ∧
    ((errorStep { state := StateClient.Error, tx_session := some 1,
                  inbound_stream := some 2 }).next.tx_session = none ∧
     (errorStep { state := StateClient.Error, tx_session := some 1,
                  inbound_stream := some 2 }).next.inbound_stream = none ∧
     (errorStep { state := StateClient.Error, tx_session := some 1,
                  inbound_stream := some 2 }).backoffSecs = some 5 ∧
     (errorStep { state := StateClient.Error, tx_session := some 1,
                  inbound_stream := some 2 }).next.state = StateClient.Init ∧
     (errorStep { state := StateClient.Error, tx_session := some 1,
                  inbound_stream := some 2 }).next.state ≠ StateClient.Work ∧
     (errorStep { state := StateClient.Error, tx_session := some 1,
                  inbound_stream := some 2 }).terminated = false) :=
  ⟨rfl, error_state_backoff_to_init
    { state := StateClient.Error, tx_session := some 1, inbound_stream := some 2 }
    GrpcEv.err
    (errorStep { state := StateClient.Error, tx_session := some 1, inbound_stream := some 2 })
    rfl rfl⟩

/-! ## Channel capacities (C7) -/

/-- C7 (code deviation): the `Channels::new` queue fabric does give the
control-plane channels capacity 10 and the data-plane channels capacity
200, but the startup routine in `main.rs` never calls it — it builds all
six channels directly with capacity 10, so the three data-plane channels
created at startup have capacity 10, not 200. -/
theorem channel_capacities :
    channelsNew = { heartbeat_to_watchdog := 10, watchdog_to_heartbeat := 10,
                    heartbeat_to_upload_message := 10, upload_message_to_grpc := 200,
                    download_message_to_dba := 200, grpc_to_download_message := 200 } ∧
    mainChannelCaps.heartbeat_to_watchdog = 10 ∧
    mainChannelCaps.watchdog_to_heartbeat = 10 ∧
    mainChannelCaps.heartbeat_to_upload_message = 10 ∧
    mainChannelCaps.upload_message_to_grpc = 10 ∧
    mainChannelCaps.download_message_to_dba = 10 ∧
    mainChannelCaps.grpc_to_download_message = 10 ∧
    ¬ mainChannelCaps.upload_message_to_grpc = 200 := by
  decide

end DataSaver
